import Mathlib

/-!
Verification development for the Screenflow screen-recorder application.

The definitions below are a shallow embedding of the three source modules the
claims concern:
* `src/hooks/useScreenRecorder.ts` — the capture-session hook (stream
  composition, recorder lifecycle, pause/resume, stop handler);
* `src/utils/mp4.ts` — the export pipeline (progress reporting, the transcode
  control flow with fallback, cancellation and staging-file cleanup);
* `src/components/RecordingOverlay.tsx` — the camera-overlay preferences
  (persisted size preset, mirror flag and bubble position; non-persisted
  picture-in-picture mode).

Asynchronous browser APIs are embedded by making the outcome of each awaited
operation an explicit parameter (an environment record), and module-level
mutable state is threaded explicitly.  Machine numbers that matter here are
integers (byte counts, pixel coordinates, milliseconds) or rationals
(progress fractions), which the source manipulates well inside double
precision exact range.
-/

namespace Screenflow

/-! ## Model of `src/hooks/useScreenRecorder.ts` -/

/-- A media stream as the hook sees it: the lists of its video and audio
track identities (`getVideoTracks()` / `getAudioTracks()`). -/
structure MediaStreamM where
  videoTracks : List Nat
  audioTracks : List Nat
  deriving Repr, DecidableEq

/-- Which capture source an audio signal comes from. -/
inductive AudioSource
  | system
  | mic
  deriving Repr, DecidableEq

/-- An audio track of the composed (recorded) stream: either a raw source
track passed through untouched, or the single track of the
`MediaStreamAudioDestinationNode`, carrying each connected source together
with the gain of its `GainNode` channel. -/
inductive ComposedTrack
  | raw (id : Nat)
  | mixed (channels : List (AudioSource × ℚ))
  deriving Repr, DecidableEq

/-- The stream handed to `MediaRecorder`. -/
structure ComposedStream where
  videoTracks : List Nat
  audioTracks : List ComposedTrack
  deriving Repr, DecidableEq

/-- Result of the stream-composition step: the combined stream plus whether
an `AudioContext` was created for it. -/
structure ComposeOutcome where
  stream : ComposedStream
  audioContextCreated : Bool
  deriving Repr, DecidableEq

/-- Step 3 of `startRecording` (useScreenRecorder.ts lines 106–137): build the
stream to record.  Mixing happens only when both system audio and microphone
audio are present (`needsMixing`); then each source feeds its own unity-gain
node into a shared destination whose single output track is used.  With system
audio only, the screen stream itself is recorded; with mic audio only, a new
stream of the screen video plus the raw mic tracks; with neither, only the
screen video. -/
def composeStream (screenStream : MediaStreamM) (micStream : Option MediaStreamM) :
    ComposeOutcome :=
  let screenVideoTracks := screenStream.videoTracks
  let systemAudioTracks := screenStream.audioTracks
  let micAudioTracks := match micStream with
    | some m => m.audioTracks
    | none => []
  if systemAudioTracks.length > 0 ∧ micAudioTracks.length > 0 then
    { stream := { videoTracks := screenVideoTracks
                  audioTracks := [ComposedTrack.mixed
                    [(AudioSource.system, (1 : ℚ)), (AudioSource.mic, (1 : ℚ))]] }
      audioContextCreated := true }
  else if systemAudioTracks.length > 0 then
    { stream := { videoTracks := screenStream.videoTracks
                  audioTracks := systemAudioTracks.map ComposedTrack.raw }
      audioContextCreated := false }
  else if micAudioTracks.length > 0 then
    { stream := { videoTracks := screenVideoTracks
                  audioTracks := micAudioTracks.map ComposedTrack.raw }
      audioContextCreated := false }
  else
    { stream := { videoTracks := screenVideoTracks, audioTracks := [] }
      audioContextCreated := false }

/-- State of the underlying `MediaRecorder`. -/
inductive RecorderState
  | inactive
  | recording
  | paused
  deriving Repr, DecidableEq

/-- The mutable state owned by one use of the hook: the React state cells,
the recorder ref (with the underlying `MediaRecorder` state), the timer ref,
the tracked streams and the audio context ref. -/
structure HookState where
  isRecording : Bool
  isPaused : Bool
  recordingTime : Nat
  recordedChunks : List Nat
  error : Option String
  recorder : Option RecorderState
  timerActive : Bool
  streams : List MediaStreamM
  audioContextOpen : Bool
  deriving Repr, DecidableEq

/-- Function `cleanup()` (lines 219–237): stop and drop all tracked streams, close the
audio context, clear the timer. -/
def applyCleanup (s : HookState) : HookState :=
  { s with streams := [], audioContextOpen := false, timerActive := false }

/-- Function `stopRecording` (lines 203–217).  The returned flag records whether the
underlying recorder was actually stopped (which is what later fires `onstop`
and produces the artifact); on the other branch only `cleanup()` runs. -/
def stopRecording (s : HookState) : HookState × Bool :=
  match s.recorder with
  | some st =>
      if st ≠ RecorderState.inactive then
        ({ s with recorder := some RecorderState.inactive
                  isRecording := false
                  isPaused := false }, true)
      else
        (applyCleanup s, false)
  | none => (applyCleanup s, false)

/-- Function `pauseRecording` (lines 239–245): only acts when the recorder exists and
is in the `recording` state. -/
def pauseRecording (s : HookState) : HookState :=
  match s.recorder with
  | some RecorderState.recording =>
      { s with recorder := some RecorderState.paused
               isPaused := true
               timerActive := false }
  | _ => s

/-- Function `resumeRecording` (lines 247–255): only acts when the recorder exists and
is in the `paused` state. -/
def resumeRecording (s : HookState) : HookState :=
  match s.recorder with
  | some RecorderState.paused =>
      { s with recorder := some RecorderState.recording
               isPaused := false
               timerActive := true }
  | _ => s

/-- The error message set by `recorder.onstop` for an empty recording
(line 177). -/
def emptyArtifactError : String :=
  "El video salio vacio. Proba grabar de nuevo y asegurate de compartir una pantalla/ventana."

/-- The generic error message set when starting the recording fails
(line 197). -/
def startFailedError : String :=
  "No se pudo iniciar la grabación. Verifica los permisos."

/-- The error message set by `recorder.onerror` (line 163). -/
def recorderError : String :=
  "No se pudo grabar este video. Verifica permisos y vuelve a intentar."

/-- Handler `recorder.ondataavailable` (lines 154–159): push a chunk and add its size
only when the size is positive.  The accumulator is the chunk list paired
with `totalBytes`. -/
def handleData (acc : List Nat × Nat) (size : Nat) : List Nat × Nat :=
  if size > 0 then (acc.1 ++ [size], acc.2 + size) else acc

/-- Accumulation of all `dataavailable` events of a session, in order. -/
def accumulateChunks (events : List Nat) : List Nat × Nat :=
  events.foldl handleData ([], 0)

/-- Result of the `onstop` handler: the exposed recorded chunks (as blob
sizes) and the error cell afterwards. -/
structure StopResult where
  recordedChunks : List Nat
  error : Option String
  deriving Repr, DecidableEq

/-- Handler `recorder.onstop` (lines 166–182): assemble the chunks into one blob; if
the blob is empty or no bytes were accumulated, expose no chunks and set the
empty-artifact error, otherwise expose the single blob (the error cell is
left as it was). -/
def handleStop (chunks : List Nat) (totalBytes : Nat) (prevError : Option String) :
    StopResult :=
  let blobSize := chunks.sum
  if blobSize = 0 ∨ totalBytes = 0 then
    { recordedChunks := [], error := some emptyArtifactError }
  else
    { recordedChunks := [blobSize], error := prevError }

/-- Outcome of `getDisplayMedia` as `startRecording` distinguishes it:
permission denied (`NotAllowedError`), some other failure, or a stream. -/
inductive ScreenResult
  | denied
  | otherError
  | ok (stream : MediaStreamM)
  deriving Repr, DecidableEq

/-- Outcome of the optional `getUserMedia` microphone acquisition. -/
inductive MicResult
  | ok (stream : MediaStreamM)
  | failed
  deriving Repr, DecidableEq

/-- The environment of one `startRecording` call: the outcomes of its awaited
device acquisitions. -/
structure StartEnv where
  screen : ScreenResult
  mic : MicResult
  deriving Repr, DecidableEq

/-- The settings fields `startRecording` consults for acquisition. -/
structure RecorderSettingsM where
  includeMic : Bool
  deriving Repr, DecidableEq

/-- Result of one `startRecording` call: the boolean the call returns, the
hook state afterwards, and the composed stream when composition was
reached. -/
structure StartOutcome where
  success : Bool
  state : HookState
  composed : Option ComposeOutcome
  deriving Repr, DecidableEq

/-- The error message for a screen-permission denial (line 69). -/
def screenDeniedError : String := "Permiso de pantalla denegado."

/-- The error message for a screen stream with no video track (line 79). -/
def noVideoError : String := "No se detecto video de pantalla. Vuelve a intentar."

/-- Function `startRecording` (lines 39–201), with each awaited acquisition resolved by
`env`.  Screen denial and a video-less screen stream fail the call; a failed
microphone acquisition is logged and ignored (`micStream = null`); otherwise
the stream is composed, the recorder is created and started, and the call
returns `true`. -/
def startRecording (settings : RecorderSettingsM) (env : StartEnv) (s : HookState) :
    StartOutcome :=
  let s := { s with error := none, recordedChunks := [] }
  match env.screen with
  | ScreenResult.denied =>
      { success := false
        state := { s with error := some screenDeniedError }
        composed := none }
  | ScreenResult.otherError =>
      { success := false
        state := applyCleanup { s with error := some startFailedError }
        composed := none }
  | ScreenResult.ok screenStream =>
      let s := { s with streams := s.streams ++ [screenStream] }
      if screenStream.videoTracks = [] then
        { success := false
          state := applyCleanup { s with error := some noVideoError }
          composed := none }
      else
        let micStream : Option MediaStreamM :=
          if settings.includeMic then
            match env.mic with
            | MicResult.ok m => some m
            | MicResult.failed => none
          else none
        let s := match micStream with
          | some m => { s with streams := s.streams ++ [m] }
          | none => s
        let outcome := composeStream screenStream micStream
        { success := true
          state := { s with isRecording := true
                            recordingTime := 0
                            timerActive := true
                            recorder := some RecorderState.recording
                            audioContextOpen := outcome.audioContextCreated }
          composed := some outcome }

/-! ## Model of `src/utils/mp4.ts` -/

/-- Function `clamp01` (mp4.ts line 14). -/
def clamp01 (value : ℚ) : ℚ := max 0 (min 1 value)

/-- The module-level progress state: `activeLastProgress01`,
`activeLastUpdateMs`, and the sequence of values actually delivered to
`activeProgressCallback`, in order. -/
structure ProgressState where
  lastProgress : ℚ
  lastUpdateMs : ℤ
  delivered : List ℚ
  deriving Repr, DecidableEq

/-- The progress state as `transcodeToMp4` resets it at the start of every
job (lines 194–195). -/
def initProgressState : ProgressState :=
  { lastProgress := 0, lastUpdateMs := 0, delivered := [] }

/-- Function `reportProgress` (lines 46–56): with no active callback do nothing;
otherwise clamp the proposed value into `[0,1]`, lift it to the running
maximum, drop the update when it comes within 150 ms of the previous one and
the value is still below 0.995, and otherwise record and deliver it.
`callbackActive` models `activeProgressCallback !== null` and `now` models
`Date.now()`. -/
def reportProgress (callbackActive : Bool) (now : ℤ) (progress01 : ℚ)
    (s : ProgressState) : ProgressState :=
  if callbackActive = false then s
  else
    let clamped := clamp01 progress01
    let monotonic := max s.lastProgress clamped
    if now - s.lastUpdateMs < 150 ∧ monotonic < (995 / 1000 : ℚ) then s
    else
      { lastProgress := monotonic, lastUpdateMs := now
        delivered := s.delivered ++ [monotonic] }

/-- All progress reports of one job before the final one, folded from the
reset state; each event is a `Date.now()` reading paired with the proposed
progress value. -/
def runProgressEvents (callbackActive : Bool) (events : List (ℤ × ℚ)) :
    ProgressState :=
  events.foldl (fun s e => reportProgress callbackActive e.1 e.2 s) initProgressState

/-- A whole successful job: the intermediate reports followed by the final
`reportProgress(1)` (line 251). -/
def runJobProgress (callbackActive : Bool) (events : List (ℤ × ℚ)) (finalNow : ℤ) :
    ProgressState :=
  reportProgress callbackActive finalNow 1 (runProgressEvents callbackActive events)

/-- Staged input file name, `input-<runId>.webm` (line 182). -/
def inputName (runId : String) : String := "input-" ++ runId ++ ".webm"

/-- Staged output file name, `output-<runId>.mp4` (line 183). -/
def outputName (runId : String) : String := "output-" ++ runId ++ ".mp4"

/-- The primary `ffmpeg.exec` argument list (lines 206–228): map the first
video stream and any audio stream, encode video with libx264 and audio with
aac. -/
def primaryArgs (inp out : String) : List String :=
  ["-i", inp, "-map", "0:v:0", "-map", "0:a?", "-c:v", "libx264",
   "-preset", "ultrafast", "-crf", "28", "-pix_fmt", "yuv420p",
   "-movflags", "+faststart", "-c:a", "aac", "-b:a", "128k", out]

/-- The fallback `ffmpeg.exec` argument list (lines 231–246): same video
encode but `-an`, so no audio stream and no audio transform at all. -/
def fallbackArgs (inp out : String) : List String :=
  ["-i", inp, "-c:v", "libx264", "-preset", "ultrafast", "-crf", "28",
   "-pix_fmt", "yuv420p", "-movflags", "+faststart", "-an", out]

/-- The awaited operation of `transcodeToMp4` during which the abort event of
the cancellation signal is dispatched (running the `onAbort` listener of
lines 186–189), when it is dispatched at all.  Abort events can only run
while the job is suspended at one of these awaits; an abort raised after the
output bytes were read no longer affects the settled result. -/
inductive AbortStage
  | duringRead
  | duringExec1
  | duringExec2
  | duringReadFile
  deriving Repr, DecidableEq

/-- The environment of one `transcodeToMp4` call: the outcome of each awaited
operation, the point (if any) at which the cancellation signal fires while
the job is in flight, whether the signal was already aborted on entry, and
the `resetAfter` option (defaulting to true). -/
structure TranscodeEnv where
  loadFails : Bool
  signalAlreadyAborted : Bool
  abortStage : Option AbortStage
  readFails : Bool
  primaryFails : Bool
  fallbackFails : Bool
  readFileFails : Bool
  resetAfter : Bool
  runId : String
  deriving Repr, DecidableEq

/-- The distinguishable outcomes of a `transcodeToMp4` call.  `abortError` is
the `DOMException` with name `AbortError`; `execError` is the generic
conversion failure rethrown after both exec attempts failed. -/
inductive TranscodeError
  | loadError
  | abortError
  | readError
  | execError
  | readFileError
  deriving Repr, DecidableEq

deriving instance DecidableEq for Except

/-- Everything observable about one `transcodeToMp4` call: how the promise
settles, whether the shared converter instance still exists afterwards
(`ffmpegInstance !== null`), whether the `onAbort` listener fired, the exec
invocations attempted in order, and the staged file names passed to
`safeDelete`. -/
structure TranscodeResult where
  result : Except TranscodeError Unit
  ffmpegLoaded : Bool
  abortFired : Bool
  execsRun : List (List String)
  deletesAttempted : List String
  deriving Repr, DecidableEq

/-- The `finally` block (lines 258–265) combined with the converter-state
effect of `onAbort`: both staged names go to `safeDelete`, and the shared
instance survives only when no abort fired and `resetAfter` is false. -/
def finishTranscode (env : TranscodeEnv) (res : Except TranscodeError Unit)
    (abortFired : Bool) (execs : List (List String)) : TranscodeResult :=
  { result := res
    ffmpegLoaded := !abortFired && !env.resetAfter
    abortFired := abortFired
    execsRun := execs
    deletesAttempted := [inputName env.runId, outputName env.runId] }

/-- The try/catch body of `transcodeToMp4` (lines 197–257) with every awaited
operation resolved by `env`: how the body settles (after the catch of
lines 253–257 has turned any failure under an aborted signal into
`AbortError`), whether the `onAbort` listener fired, and the exec attempts in
order.  In program order: reading the input blob (which rejects at once on a
pre-aborted signal, and rejects with `AbortError` when the signal fires
during the read), writing the staged input, the primary exec, on its failure
the fallback exec, and reading the staged output.  An abort firing during an
exec terminates the converter, so that exec — and, for the primary, the
fallback attempted right after on the dead instance — fails. -/
def transcodeSteps (env : TranscodeEnv) :
    Except TranscodeError Unit × Bool × List (List String) :=
  let inp := inputName env.runId
  let out := outputName env.runId
  if env.signalAlreadyAborted then
    (Except.error TranscodeError.abortError, false, [])
  else if env.abortStage = some AbortStage.duringRead then
    (Except.error TranscodeError.abortError, true, [])
  else if env.readFails then
    (Except.error TranscodeError.readError, false, [])
  else if env.abortStage = some AbortStage.duringExec1 then
    (Except.error TranscodeError.abortError, true,
      [primaryArgs inp out, fallbackArgs inp out])
  else if env.primaryFails then
    if env.abortStage = some AbortStage.duringExec2 then
      (Except.error TranscodeError.abortError, true,
        [primaryArgs inp out, fallbackArgs inp out])
    else if env.fallbackFails then
      (Except.error TranscodeError.execError, false,
        [primaryArgs inp out, fallbackArgs inp out])
    else if env.abortStage = some AbortStage.duringReadFile then
      (Except.error TranscodeError.abortError, true,
        [primaryArgs inp out, fallbackArgs inp out])
    else if env.readFileFails then
      (Except.error TranscodeError.readFileError, false,
        [primaryArgs inp out, fallbackArgs inp out])
    else
      (Except.ok (), false, [primaryArgs inp out, fallbackArgs inp out])
  else if env.abortStage = some AbortStage.duringReadFile then
    (Except.error TranscodeError.abortError, true, [primaryArgs inp out])
  else if env.readFileFails then
    (Except.error TranscodeError.readFileError, false, [primaryArgs inp out])
  else
    (Except.ok (), false, [primaryArgs inp out])

/-- Function `transcodeToMp4` (lines 168–266): a converter-load failure rejects before
anything is staged; otherwise the body runs and the `finally` block always
deletes both staged names and applies `resetAfter` (and a fired abort has
already discarded the instance). -/
def transcodeToMp4 (env : TranscodeEnv) : TranscodeResult :=
  if env.loadFails then
    { result := Except.error TranscodeError.loadError
      ffmpegLoaded := false
      abortFired := false
      execsRun := []
      deletesAttempted := [] }
  else
    finishTranscode env (transcodeSteps env).1 (transcodeSteps env).2.1
      (transcodeSteps env).2.2

/-! ## Model of `src/components/RecordingOverlay.tsx` -/

/-- The picture-in-picture mode of the overlay. -/
inductive PipMode
  | none
  | video
  | document
  deriving Repr, DecidableEq

/-- The overlay size preset. -/
inductive PipSize
  | sm
  | md
  | lg
  deriving Repr, DecidableEq

/-- Predicate `isPipSize` (RecordingOverlay.tsx lines 27–28): the stored string is one
of the three presets (`null` models an absent key). -/
def isPipSize (value : Option String) : Bool :=
  value == some "sm" || value == some "md" || value == some "lg"

/-- The durable key-value storage slots the overlay touches, one per
`localStorage` key: `screenflow.cameraPipSize`, `screenflow.cameraMirror`
and `screenflow.cameraBubblePos`.  The bubble-position slot describes what
the restore path can observe of the stored string: `none` when the key is
absent; `some none` when reading it throws inside the restore's try block
(the string is malformed JSON, or parses to a value such as `null` whose
member access throws); and `some (some (ox, oy))` when the parse and member
accesses succeed, where `ox` is `some x` when the `x` member coerces to the
number `x` and `none` when it coerces to NaN (a missing or non-numeric
member — a parsed empty object or a parsed bare number both land here), and
likewise `oy`.  Drag-end writes store `JSON.stringify` of a record with
numeric members, which decodes back to `some (some (some x, some y))`. -/
structure OverlayStorage where
  cameraPipSize : Option String
  cameraMirror : Option String
  cameraBubblePos : Option (Option (Option ℤ × Option ℤ))
  deriving Repr, DecidableEq

/-- The overlay state cells the claims concern, as they stand after the
component mounts.  The live bubble position is unset (`none`) until
initialized; once set, each of its coordinate components is `some` of a
number or `none` for NaN (which a restore of a wrong-shape stored value can
produce). -/
structure OverlayState where
  pipMode : PipMode
  pipSize : PipSize
  isCameraMirrored : Bool
  bubblePos : Option (Option ℤ × Option ℤ)
  deriving Repr, DecidableEq

/-- The mount effect for the size preset (lines 66–73): keep the stored value
only when `isPipSize` accepts it, decoding it to the matching preset;
otherwise the `useState` default `sm` stands. -/
def mountPipSize (raw : Option String) : PipSize :=
  if raw = some "sm" then PipSize.sm
  else if raw = some "md" then PipSize.md
  else if raw = some "lg" then PipSize.lg
  else PipSize.sm

/-- The mount effect for the mirror flag (lines 83–91): starting from the
`useState` default `true`, set it false on a stored `"false"` or `"0"` and
true on a stored `"true"` or `"1"`; any other or absent value leaves the
default. -/
def mountMirror (raw : Option String) : Bool :=
  let m := true
  let m := if raw = some "false" ∨ raw = some "0" then false else m
  let m := if raw = some "true" ∨ raw = some "1" then true else m
  m

/-- Function `clamp` (line 57). -/
def clamp (v lo hi : ℤ) : ℤ := min hi (max lo v)

/-- Function `initBubblePos` (lines 107–130): when a stored value is present
and reading it does not throw, the position is set to the stored coordinates
clamped into the viewport and the function returns early — and since
`Math.max`/`Math.min` over a NaN operand (modeled `none`) stay NaN, a stored
value that parses without numeric `x`/`y` members is restored as NaN
coordinates, not replaced by the default.  Only an absent key or a throwing
read falls through to the default top-right position.  `w`/`h` are the
measured bubble size and `innerW`/`innerH` the viewport. -/
def initBubblePos (stored : Option (Option (Option ℤ × Option ℤ)))
    (innerW innerH w h : ℤ) : Option ℤ × Option ℤ :=
  let margin : ℤ := 24
  match stored with
  | some (some (px, py)) =>
      (px.map (fun x => clamp x margin (innerW - w - margin)),
       py.map (fun y => clamp y margin (innerH - h - margin)))
  | _ => (some (max margin (innerW - w - margin)), some margin)

/-- The component mounting (lines 39–55 with the mount effects): the mode
`useState` starts at `none` and no effect reads a stored mode, the size and
mirror effects restore their keys, and the bubble position starts unset
(`initBubblePos` fills it in later, once the camera is active). -/
def mountOverlay (st : OverlayStorage) : OverlayState :=
  { pipMode := PipMode.none
    pipSize := mountPipSize st.cameraPipSize
    isCameraMirrored := mountMirror st.cameraMirror
    bubblePos := none }

/-- The stored string for a size preset, as the write effect (lines 75–81)
stores it. -/
def pipSizeKey : PipSize → String
  | PipSize.sm => "sm"
  | PipSize.md => "md"
  | PipSize.lg => "lg"

/-- The write effect for the size preset (lines 75–81), run whenever
`pipSize` changes. -/
def persistPipSize (st : OverlayStorage) (v : PipSize) : OverlayStorage :=
  { st with cameraPipSize := some (pipSizeKey v) }

/-- The write effect for the mirror flag (lines 93–99), run whenever
`isCameraMirrored` changes; `String(bool)` stores `"true"` or `"false"`. -/
def persistMirror (st : OverlayStorage) (m : Bool) : OverlayStorage :=
  { st with cameraMirror := some (if m then "true" else "false") }

/-- The explicit bubble-position writes — the drag-end write (line 455) and
the size-change reclamp write (lines 196–200): `JSON.stringify` of the
record with the current numeric coordinates, which decodes back to the same
pair. -/
def persistBubblePos (st : OverlayStorage) (p : ℤ × ℤ) : OverlayStorage :=
  { st with cameraBubblePos := some (some (some p.1, some p.2)) }

/-- The viewport-resize handler (lines 174–186): a still-unset position is
left alone; otherwise the live position is reclamped into the new viewport.
This path performs no storage write. -/
def onResize (pos : Option (Option ℤ × Option ℤ)) (st : OverlayStorage)
    (innerW innerH w h : ℤ) :
    Option (Option ℤ × Option ℤ) × OverlayStorage :=
  match pos with
  | none => (none, st)
  | some (ox, oy) =>
      (some (ox.map (fun x => clamp x 24 (innerW - w - 24)),
             oy.map (fun y => clamp y 24 (innerH - h - 24))), st)

/-! ## Theorems about the capture session -/

/-- Helper: the bytes accumulated by `ondataavailable` equal the size of the
blob later assembled from the accumulated chunks. -/
theorem accumulateChunks_sum (events : List Nat) :
    (accumulateChunks events).1.sum = (accumulateChunks events).2 := by
  suffices h : ∀ acc : List Nat × Nat, acc.1.sum = acc.2 →
      (events.foldl handleData acc).1.sum = (events.foldl handleData acc).2 by
    exact h ([], 0) rfl
  induction events with
  | nil => intro acc hacc; simpa using hacc
  | cons e rest ih =>
      intro acc hacc
      simp only [List.foldl_cons]
      apply ih
      unfold handleData
      split
      · simp [hacc]
      · exact hacc

/-- C1: at stream-composition time, two audio sources yield exactly one
composed audio track — the mix of both sources, each through a unity-gain
channel, into the shared destination — with an audio context created; a
single audio source (system-only, for any microphone outcome without audio,
or mic-only) is passed through raw with no audio context; and with no audio
source the composed stream has zero audio tracks while `startRecording`
still proceeds to a successful video-only start. -/
theorem composition_policy (screen mic : MediaStreamM) (micOpt : Option MediaStreamM)
    (s : HookState) :
    (screen.audioTracks ≠ [] → mic.audioTracks ≠ [] →
      composeStream screen (some mic) =
        { stream := { videoTracks := screen.videoTracks
                      audioTracks := [ComposedTrack.mixed
                        [(AudioSource.system, 1), (AudioSource.mic, 1)]] }
          audioContextCreated := true }) ∧
    (screen.audioTracks ≠ [] → micOpt.elim [] (fun m => m.audioTracks) = [] →
      composeStream screen micOpt =
        { stream := { videoTracks := screen.videoTracks
                      audioTracks := screen.audioTracks.map ComposedTrack.raw }
          audioContextCreated := false }) ∧
    (screen.audioTracks = [] → mic.audioTracks ≠ [] →
      composeStream screen (some mic) =
        { stream := { videoTracks := screen.videoTracks
                      audioTracks := mic.audioTracks.map ComposedTrack.raw }
          audioContextCreated := false }) ∧
    (screen.audioTracks = [] → micOpt.elim [] (fun m => m.audioTracks) = [] →
      (composeStream screen micOpt).stream.audioTracks = [] ∧
      (composeStream screen micOpt).audioContextCreated = false) ∧
    (screen.videoTracks ≠ [] →
      (startRecording { includeMic := false } { screen := ScreenResult.ok screen
                                                mic := MicResult.failed } s).success = true ∧
      (startRecording { includeMic := false } { screen := ScreenResult.ok screen
                                                mic := MicResult.failed } s).composed =
        some (composeStream screen none)) := by
  refine ⟨?_, ?_, ?_, ?_, ?_⟩
  · intro hs hm
    have hs' : screen.audioTracks.length > 0 := List.length_pos.mpr hs
    have hm' : mic.audioTracks.length > 0 := List.length_pos.mpr hm
    simp [composeStream, hs', hm']
  · intro hs hmic
    have hs' : screen.audioTracks.length > 0 := List.length_pos.mpr hs
    cases micOpt with
    | none => simp [composeStream, hs']
    | some m =>
        simp only [Option.elim] at hmic
        simp [composeStream, hs', hmic]
  · intro hs hm
    have hm' : mic.audioTracks.length > 0 := List.length_pos.mpr hm
    simp [composeStream, hs, hm']
  · intro hs hmic
    cases micOpt with
    | none => simp [composeStream, hs]
    | some m =>
        simp only [Option.elim] at hmic
        simp [composeStream, hs, hmic]
  · intro hv
    simp [startRecording, hv]

/-- C1 witness: with one system-audio track and one microphone track the
composed stream carries exactly the single mixed track. -/
theorem composition_policy_witness :
    composeStream { videoTracks := [1], audioTracks := [2] }
        (some { videoTracks := [], audioTracks := [3] }) =
      { stream := { videoTracks := [1]
                    audioTracks := [ComposedTrack.mixed
                      [(AudioSource.system, 1), (AudioSource.mic, 1)]] }
        audioContextCreated := true } :=
  (composition_policy { videoTracks := [1], audioTracks := [2] }
      { videoTracks := [], audioTracks := [3] }
      (some { videoTracks := [], audioTracks := [3] })
      { isRecording := false, isPaused := false, recordingTime := 0
        recordedChunks := [], error := none, recorder := none
        timerActive := false, streams := [], audioContextOpen := false }).1
    (by decide) (by decide)

/-- C4: a session whose recorder stops with zero accumulated bytes exposes an
empty recorded-chunks output and the distinct empty-artifact error (different
from every other error message of the hook); a usable single-blob artifact is
exposed exactly when the accumulated byte count is positive. -/
theorem empty_artifact_reported (events : List Nat) (prevError : Option String) :
    ((accumulateChunks events).2 = 0 →
      handleStop (accumulateChunks events).1 (accumulateChunks events).2 prevError =
        { recordedChunks := [], error := some emptyArtifactError }) ∧
    ((accumulateChunks events).2 > 0 →
      handleStop (accumulateChunks events).1 (accumulateChunks events).2 prevError =
        { recordedChunks := [(accumulateChunks events).2], error := prevError }) ∧
    emptyArtifactError ≠ startFailedError ∧
    emptyArtifactError ≠ recorderError ∧
    emptyArtifactError ≠ screenDeniedError ∧
    emptyArtifactError ≠ noVideoError := by
  have hsum := accumulateChunks_sum events
  refine ⟨?_, ?_, by decide, by decide, by decide, by decide⟩
  · intro h0
    simp [handleStop, hsum, h0]
  · intro hpos
    have hne : (accumulateChunks events).2 ≠ 0 := Nat.pos_iff_ne_zero.mp hpos
    simp [handleStop, hsum, hne]

/-- C4 witness: two data events of 0 bytes leave an empty artifact and the
empty-artifact error; a 5-byte event yields the single usable blob. -/
theorem empty_artifact_reported_witness :
    handleStop (accumulateChunks [0, 0]).1 (accumulateChunks [0, 0]).2 none =
      { recordedChunks := [], error := some emptyArtifactError } ∧
    handleStop (accumulateChunks [5]).1 (accumulateChunks [5]).2 none =
      { recordedChunks := [5], error := none } :=
  ⟨(empty_artifact_reported [0, 0] none).1 (by decide),
   (empty_artifact_reported [5] none).2.1 (by decide)⟩

/-- C5: with `includeMic` requested but the microphone acquisition failing,
`startRecording` still succeeds given a screen stream with video: it returns
`true`, reaches the recording state with no error, and composes the stream
with the microphone omitted. -/
theorem mic_failure_degrades_silently (settings : RecorderSettingsM) (env : StartEnv)
    (s : HookState) (screen : MediaStreamM)
    (hmic : settings.includeMic = true)
    (hfail : env.mic = MicResult.failed)
    (hscr : env.screen = ScreenResult.ok screen)
    (hvid : screen.videoTracks ≠ []) :
    (startRecording settings env s).success = true ∧
    (startRecording settings env s).state.isRecording = true ∧
    (startRecording settings env s).state.recorder = some RecorderState.recording ∧
    (startRecording settings env s).state.error = none ∧
    (startRecording settings env s).composed = some (composeStream screen none) := by
  simp [startRecording, hscr, hvid, hmic, hfail]

/-- C5 witness: microphone failure with a valid video-only screen stream
still starts the recording. -/
theorem mic_failure_degrades_silently_witness :
    (startRecording { includeMic := true }
        { screen := ScreenResult.ok { videoTracks := [1], audioTracks := [] }
          mic := MicResult.failed }
        { isRecording := false, isPaused := false, recordingTime := 0
          recordedChunks := [], error := none, recorder := none
          timerActive := false, streams := [], audioContextOpen := false }).success =
      true :=
  (mic_failure_degrades_silently { includeMic := true }
      { screen := ScreenResult.ok { videoTracks := [1], audioTracks := [] }
        mic := MicResult.failed }
      { isRecording := false, isPaused := false, recordingTime := 0
        recordedChunks := [], error := none, recorder := none
        timerActive := false, streams := [], audioContextOpen := false }
      { videoTracks := [1], audioTracks := [] }
      rfl rfl rfl (by decide)).1

/-- C8: a second `stopRecording` call after any first one finds the recorder
inactive, issues no second encoder stop (so no second artifact can be
produced) and at most re-runs the resource cleanup. -/
theorem stop_idempotent (s : HookState) :
    stopRecording (stopRecording s).1 = (applyCleanup (stopRecording s).1, false) := by
  rcases s with ⟨ir, ip, rt, rc, er, rec, ta, st, ac⟩
  cases rec with
  | none => rfl
  | some rst => cases rst <;> rfl

/-- C10: `pauseRecording` when the recorder is not actively recording, and
`resumeRecording` when it is not paused, leave the hook state — paused flag,
elapsed-time counter, timer and recorder state — entirely unchanged. -/
theorem pause_resume_guarded_noop (s : HookState) :
    (s.recorder ≠ some RecorderState.recording → pauseRecording s = s) ∧
    (s.recorder ≠ some RecorderState.paused → resumeRecording s = s) := by
  constructor
  · intro h
    unfold pauseRecording
    cases hr : s.recorder with
    | none => rfl
    | some rst => cases rst <;> simp_all
  · intro h
    unfold resumeRecording
    cases hr : s.recorder with
    | none => rfl
    | some rst => cases rst <;> simp_all

/-- C10 witness: pausing an inactive session and resuming a non-paused one
both leave the state untouched. -/
theorem pause_resume_guarded_noop_witness :
    pauseRecording
        { isRecording := false, isPaused := false, recordingTime := 7
          recordedChunks := [], error := none
          recorder := some RecorderState.inactive
          timerActive := false, streams := [], audioContextOpen := false } =
      { isRecording := false, isPaused := false, recordingTime := 7
        recordedChunks := [], error := none
        recorder := some RecorderState.inactive
        timerActive := false, streams := [], audioContextOpen := false } :=
  (pause_resume_guarded_noop
      { isRecording := false, isPaused := false, recordingTime := 7
        recordedChunks := [], error := none
        recorder := some RecorderState.inactive
        timerActive := false, streams := [], audioContextOpen := false }).1
    (by decide)

/-! ## Theorems about export progress reporting -/

/-- Invariant of the progress state: the running maximum stays inside
`[0,1]`, the delivered sequence is non-decreasing, and every delivered value
is bounded by the running maximum. -/
def ProgressInv (s : ProgressState) : Prop :=
  0 ≤ s.lastProgress ∧ s.lastProgress ≤ 1 ∧
  s.delivered.Chain' (· ≤ ·) ∧
  ∀ x ∈ s.delivered, 0 ≤ x ∧ x ≤ s.lastProgress

theorem progressInv_init : ProgressInv initProgressState := by
  refine ⟨by norm_num [initProgressState], by norm_num [initProgressState], ?_, ?_⟩
  · simp [initProgressState]
  · intro x hx
    simp [initProgressState] at hx

/-- One `reportProgress` call preserves the invariant. -/
theorem reportProgress_inv (cb : Bool) (now : ℤ) (p : ℚ) (s : ProgressState)
    (h : ProgressInv s) : ProgressInv (reportProgress cb now p s) := by
  obtain ⟨h0, h1, hchain, hbound⟩ := h
  unfold reportProgress
  by_cases hcb : cb = false
  · simpa [hcb] using ⟨h0, h1, hchain, hbound⟩
  · simp only [if_neg hcb]
    by_cases hthr : now - s.lastUpdateMs < 150 ∧ s.lastProgress ⊔ clamp01 p < 995 / 1000
    · simpa [hthr] using ⟨h0, h1, hchain, hbound⟩
    · simp only [if_neg hthr]
      have hc0 : 0 ≤ clamp01 p := le_max_left 0 _
      have hc1 : clamp01 p ≤ 1 := max_le (by norm_num) (min_le_left 1 p)
      have hm0 : 0 ≤ max s.lastProgress (clamp01 p) := le_trans h0 (le_max_left _ _)
      have hm1 : max s.lastProgress (clamp01 p) ≤ 1 := max_le h1 hc1
      have hmono : s.lastProgress ≤ max s.lastProgress (clamp01 p) := le_max_left _ _
      refine ⟨hm0, hm1, ?_, ?_⟩
      · rw [List.chain'_append]
        refine ⟨hchain, List.chain'_singleton _, ?_⟩
        intro x hx y hy
        simp only [List.head?_cons, Option.mem_def, Option.some.injEq] at hy
        subst hy
        have hxm : x ∈ s.delivered := List.mem_of_mem_getLast? hx
        exact le_trans (hbound x hxm).2 hmono
      · intro x hx
        rcases List.mem_append.mp hx with hx | hx
        · exact ⟨(hbound x hx).1, le_trans (hbound x hx).2 hmono⟩
        · simp only [List.mem_singleton] at hx
          subst hx
          exact ⟨hm0, le_refl _⟩

/-- The invariant holds after any sequence of progress reports. -/
theorem runProgressEvents_inv (cb : Bool) (events : List (ℤ × ℚ)) :
    ProgressInv (runProgressEvents cb events) := by
  unfold runProgressEvents
  suffices h : ∀ s : ProgressState, ProgressInv s →
      ProgressInv (events.foldl (fun s e => reportProgress cb e.1 e.2 s) s) from
    h initProgressState progressInv_init
  induction events with
  | nil => intro s hs; exact hs
  | cons e rest ih =>
      intro s hs
      exact ih _ (reportProgress_inv cb e.1 e.2 s hs)

/-- The final `reportProgress(1)` is delivered unconditionally (when a
callback is registered) and appends exactly the value 1. -/
theorem reportProgress_final (now : ℤ) (s : ProgressState) (h : ProgressInv s) :
    reportProgress true now 1 s =
      { lastProgress := 1, lastUpdateMs := now, delivered := s.delivered ++ [1] } := by
  obtain ⟨h0, h1, -, -⟩ := h
  have hclamp : clamp01 1 = 1 := by norm_num [clamp01]
  have hmax : max s.lastProgress (clamp01 1) = 1 := by
    rw [hclamp]
    exact max_eq_right h1
  unfold reportProgress
  simp only [Bool.true_eq_false, if_false, hmax]
  rw [if_neg]
  rintro ⟨-, hlt⟩
  norm_num at hlt

/-- C2: over one export job every value delivered to the progress callback
lies in `[0,1]`, the delivered sequence is non-decreasing (rate limiting only
drops updates, it never lowers one), and on successful completion — when a
callback is registered — the final delivered value is exactly 1. -/
theorem progress_monotone_final_one (cb : Bool) (events : List (ℤ × ℚ)) (finalNow : ℤ) :
    (∀ x ∈ (runJobProgress cb events finalNow).delivered, 0 ≤ x ∧ x ≤ 1) ∧
    (runJobProgress cb events finalNow).delivered.Chain' (· ≤ ·) ∧
    (cb = true →
      (runJobProgress cb events finalNow).delivered.getLast? = some 1) := by
  have hrun := runProgressEvents_inv cb events
  have hfin := reportProgress_inv cb finalNow 1 _ hrun
  have hjob : runJobProgress cb events finalNow =
      reportProgress cb finalNow 1 (runProgressEvents cb events) := rfl
  refine ⟨?_, ?_, ?_⟩
  · intro x hx
    rw [hjob] at hx
    obtain ⟨-, hle1, -, hbound⟩ := hfin
    exact ⟨(hbound x hx).1, le_trans (hbound x hx).2 hle1⟩
  · rw [hjob]
    exact hfin.2.2.1
  · intro hcb
    subst hcb
    rw [hjob, reportProgress_final finalNow _ hrun]
    simp

/-- C2 witness: a job whose raw reports go 0.5, then (out of order and out of
range) 0.3 and 2, then the final report, delivers only in-range values in
non-decreasing order, with the last delivered value exactly 1. -/
theorem progress_monotone_final_one_witness :
    (∀ x ∈ (runJobProgress true [(0, 1/2), (10, 3/10), (400, 2)] 700).delivered,
      0 ≤ x ∧ x ≤ 1) ∧
    (runJobProgress true [(0, 1/2), (10, 3/10), (400, 2)] 700).delivered.getLast? =
      some 1 :=
  ⟨(progress_monotone_final_one true [(0, 1/2), (10, 3/10), (400, 2)] 700).1,
   (progress_monotone_final_one true [(0, 1/2), (10, 3/10), (400, 2)] 700).2.2 rfl⟩

/-! ## Theorems about the transcode control flow -/

/-- Helper: a staged input name always begins with the character `i`. -/
theorem inputName_head (r : String) : (inputName r).data.head? = some 'i' := by
  simp [inputName, String.data_append]

/-- Helper: a staged output name always begins with the character `o`. -/
theorem outputName_head (r : String) : (outputName r).data.head? = some 'o' := by
  simp [outputName, String.data_append]

/-- Helper: no string starting with a different character is a staged input
name. -/
theorem inputName_ne (r t : String) (h : t.data.head? ≠ some 'i') : inputName r ≠ t :=
  fun he => h (he ▸ inputName_head r)

/-- Helper: no string starting with a different character is a staged output
name. -/
theorem outputName_ne (r t : String) (h : t.data.head? ≠ some 'o') : outputName r ≠ t :=
  fun he => h (he ▸ outputName_head r)

/-- Helper: whenever the abort listener fired during the body, the body
settles with `AbortError`. -/
theorem transcodeSteps_abort (env : TranscodeEnv)
    (h : (transcodeSteps env).2.1 = true) :
    (transcodeSteps env).1 = Except.error TranscodeError.abortError := by
  revert h
  simp only [transcodeSteps]
  split_ifs <;> simp

/-- C3: whenever the cancellation signal fires while the transcode is in
flight (the `onAbort` listener runs), the call settles with the
distinguished `AbortError` — never the generic conversion failure — and the
shared converter instance is discarded, so a subsequent job starts by
loading a fresh one. -/
theorem cancel_rejects_abort_and_discards_converter (env : TranscodeEnv)
    (h : (transcodeToMp4 env).abortFired = true) :
    (transcodeToMp4 env).result = Except.error TranscodeError.abortError ∧
    (transcodeToMp4 env).ffmpegLoaded = false := by
  unfold transcodeToMp4 at h ⊢
  by_cases hl : env.loadFails = true
  · rw [if_pos hl] at h
    simp at h
  · rw [if_neg hl] at h ⊢
    simp only [finishTranscode] at h ⊢
    exact ⟨transcodeSteps_abort env h, by simp [h]⟩

/-- C3 witness: a signal firing during the primary conversion rejects with
`AbortError` and leaves no converter instance behind. -/
theorem cancel_rejects_abort_witness :
    (transcodeToMp4
        { loadFails := false, signalAlreadyAborted := false
          abortStage := some AbortStage.duringExec1
          readFails := false, primaryFails := false, fallbackFails := false
          readFileFails := false, resetAfter := false, runId := "a" }).result =
      Except.error TranscodeError.abortError :=
  (cancel_rejects_abort_and_discards_converter
      { loadFails := false, signalAlreadyAborted := false
        abortStage := some AbortStage.duringExec1
        readFails := false, primaryFails := false, fallbackFails := false
        readFileFails := false, resetAfter := false, runId := "a" }
      (by decide)).1

/-- C6: when the primary conversion fails (with the job not cancelled),
exactly one fallback exec is attempted after it and none after that; the
fallback disables audio entirely (`-an`) and carries none of the audio
mapping or audio transform arguments of the primary command; and if the
fallback fails too, the call settles with the generic conversion failure. -/
theorem fallback_is_video_only_and_single (env : TranscodeEnv)
    (hload : env.loadFails = false)
    (hsig : env.signalAlreadyAborted = false)
    (habort : env.abortStage = none)
    (hread : env.readFails = false)
    (hprim : env.primaryFails = true) :
    (transcodeToMp4 env).execsRun =
      [primaryArgs (inputName env.runId) (outputName env.runId),
       fallbackArgs (inputName env.runId) (outputName env.runId)] ∧
    "-an" ∈ fallbackArgs (inputName env.runId) (outputName env.runId) ∧
    "-map" ∉ fallbackArgs (inputName env.runId) (outputName env.runId) ∧
    "0:a?" ∉ fallbackArgs (inputName env.runId) (outputName env.runId) ∧
    "-c:a" ∉ fallbackArgs (inputName env.runId) (outputName env.runId) ∧
    "aac" ∉ fallbackArgs (inputName env.runId) (outputName env.runId) ∧
    "-b:a" ∉ fallbackArgs (inputName env.runId) (outputName env.runId) ∧
    "128k" ∉ fallbackArgs (inputName env.runId) (outputName env.runId) ∧
    (env.fallbackFails = true →
      (transcodeToMp4 env).result = Except.error TranscodeError.execError) := by
  have hne : ∀ t : String, t.data.head? ≠ some 'i' → t.data.head? ≠ some 'o' →
      t ≠ inputName env.runId ∧ t ≠ outputName env.runId := fun t hi ho =>
    ⟨Ne.symm (inputName_ne env.runId t hi), Ne.symm (outputName_ne env.runId t ho)⟩
  obtain ⟨hm1, hm2⟩ := hne "-map" (by decide) (by decide)
  obtain ⟨ha1, ha2⟩ := hne "0:a?" (by decide) (by decide)
  obtain ⟨hc1, hc2⟩ := hne "-c:a" (by decide) (by decide)
  obtain ⟨hd1, hd2⟩ := hne "aac" (by decide) (by decide)
  obtain ⟨he1, he2⟩ := hne "-b:a" (by decide) (by decide)
  obtain ⟨hf1, hf2⟩ := hne "128k" (by decide) (by decide)
  refine ⟨?_, by simp [fallbackArgs], by simp [fallbackArgs, hm1, hm2],
    by simp [fallbackArgs, ha1, ha2], by simp [fallbackArgs, hc1, hc2],
    by simp [fallbackArgs, hd1, hd2], by simp [fallbackArgs, he1, he2],
    by simp [fallbackArgs, hf1, hf2], ?_⟩
  · simp only [transcodeToMp4, hload, Bool.false_eq_true, if_false, finishTranscode]
    simp only [transcodeSteps]
    split_ifs <;> simp_all
  · intro hfb
    simp only [transcodeToMp4, hload, Bool.false_eq_true, if_false, finishTranscode]
    simp [transcodeSteps, hsig, habort, hread, hprim, hfb]

/-- C6 witness: with the primary exec failing and the fallback failing too,
the two commands are attempted in order and the job fails with the generic
conversion error; the fallback command carries `-an` and no audio
arguments. -/
theorem fallback_is_video_only_witness :
    (transcodeToMp4
        { loadFails := false, signalAlreadyAborted := false, abortStage := none
          readFails := false, primaryFails := true, fallbackFails := true
          readFileFails := false, resetAfter := true, runId := "b" }).execsRun =
      [primaryArgs (inputName "b") (outputName "b"),
       fallbackArgs (inputName "b") (outputName "b")] ∧
    (transcodeToMp4
        { loadFails := false, signalAlreadyAborted := false, abortStage := none
          readFails := false, primaryFails := true, fallbackFails := true
          readFileFails := false, resetAfter := true, runId := "b" }).result =
      Except.error TranscodeError.execError :=
  ⟨(fallback_is_video_only_and_single
      { loadFails := false, signalAlreadyAborted := false, abortStage := none
        readFails := false, primaryFails := true, fallbackFails := true
        readFileFails := false, resetAfter := true, runId := "b" }
      rfl rfl rfl rfl rfl).1,
   (fallback_is_video_only_and_single
      { loadFails := false, signalAlreadyAborted := false, abortStage := none
        readFails := false, primaryFails := true, fallbackFails := true
        readFileFails := false, resetAfter := true, runId := "b" }
      rfl rfl rfl rfl rfl).2.2.2.2.2.2.2.2 rfl⟩

/-- C7: on every outcome other than a converter-load failure (where nothing
was ever staged), the call hands both staged file names — the input it wrote
and the output it targeted — to `safeDelete` before returning. -/
theorem staged_files_always_deleted (env : TranscodeEnv)
    (h : env.loadFails = false) :
    (transcodeToMp4 env).deletesAttempted =
      [inputName env.runId, outputName env.runId] := by
  unfold transcodeToMp4
  rw [if_neg (by simp [h])]
  rfl

/-- C7 witness: a successful job deletes exactly its two staged files. -/
theorem staged_files_always_deleted_witness :
    (transcodeToMp4
        { loadFails := false, signalAlreadyAborted := false, abortStage := none
          readFails := false, primaryFails := false, fallbackFails := false
          readFileFails := false, resetAfter := true, runId := "c" }).deletesAttempted =
      [inputName "c", outputName "c"] :=
  staged_files_always_deleted
    { loadFails := false, signalAlreadyAborted := false, abortStage := none
      readFails := false, primaryFails := false, fallbackFails := false
      readFileFails := false, resetAfter := true, runId := "c" } rfl

/-! ## Theorems about overlay preference persistence -/

/-- C9 counterexample: the claim's "an invalid stored value leaves the
default" fails on a stored position that parses but carries no numeric
coordinates (the stored string of an empty JSON object): the restored
position is the NaN pair, not the default top-right; and the claim's
"written whenever they change" fails on a viewport resize, which moves the
live position while the storage keeps the stale coordinates untouched. -/
theorem overlay_invalid_position_not_default :
    initBubblePos (some (some (none, none))) 800 600 160 160 ≠
      (some (max 24 (800 - 160 - 24)), some 24) ∧
    (onResize (some (some 700, some 40))
        { cameraPipSize := none, cameraMirror := none
          cameraBubblePos := some (some (some 700, some 40)) }
        400 600 160 160).1 ≠ some (some 700, some 40) ∧
    (onResize (some (some 700, some 40))
        { cameraPipSize := none, cameraMirror := none
          cameraBubblePos := some (some (some 700, some 40)) }
        400 600 160 160).2 =
      { cameraPipSize := none, cameraMirror := none
        cameraBubblePos := some (some (some 700, some 40)) } := by
  decide

/-- C9 (amended): the size preset and mirror flag are written on change and
restored on mount, an absent or unrecognized stored value leaving the
defaults (`sm`, mirrored), and the picture-in-picture mode starts as `none`
on every mount whatever the storage holds.  The bubble position written by
the drag-end and size-change paths is restored on mount clamped into the
viewport (exactly itself when already inside); an absent key or a stored
value whose read throws leaves the default top-right position, but a stored
value that parses without numeric coordinates is restored as the clamp of
its NaN members (NaN coordinates, not the default), and the viewport-resize
reclamp changes the live position without any storage write. -/
theorem overlay_preferences_persist (st : OverlayStorage) (v : PipSize) (m : Bool)
    (p : ℤ × ℤ) (pos : Option (Option ℤ × Option ℤ)) (ox oy : Option ℤ)
    (innerW innerH w h : ℤ) :
    (mountOverlay st).pipMode = PipMode.none ∧
    (mountOverlay (persistPipSize st v)).pipSize = v ∧
    (isPipSize st.cameraPipSize = false → (mountOverlay st).pipSize = PipSize.sm) ∧
    (mountOverlay (persistMirror st m)).isCameraMirrored = m ∧
    (st.cameraMirror ∉ [some "false", some "0", some "true", some "1"] →
      (mountOverlay st).isCameraMirrored = true) ∧
    initBubblePos (persistBubblePos st p).cameraBubblePos innerW innerH w h =
      (some (clamp p.1 24 (innerW - w - 24)), some (clamp p.2 24 (innerH - h - 24))) ∧
    (24 ≤ p.1 → p.1 ≤ innerW - w - 24 → 24 ≤ p.2 → p.2 ≤ innerH - h - 24 →
      initBubblePos (persistBubblePos st p).cameraBubblePos innerW innerH w h =
        (some p.1, some p.2)) ∧
    (st.cameraBubblePos = none →
      initBubblePos st.cameraBubblePos innerW innerH w h =
        (some (max 24 (innerW - w - 24)), some 24)) ∧
    (st.cameraBubblePos = some none →
      initBubblePos st.cameraBubblePos innerW innerH w h =
        (some (max 24 (innerW - w - 24)), some 24)) ∧
    (st.cameraBubblePos = some (some (ox, oy)) →
      initBubblePos st.cameraBubblePos innerW innerH w h =
        (ox.map (fun x => clamp x 24 (innerW - w - 24)),
         oy.map (fun y => clamp y 24 (innerH - h - 24)))) ∧
    (onResize pos st innerW innerH w h).2 = st := by
  refine ⟨rfl, ?_, ?_, ?_, ?_, ?_, ?_, ?_, ?_, ?_, ?_⟩
  · cases v <;> simp [mountOverlay, persistPipSize, mountPipSize, pipSizeKey]
  · intro hbad
    simp only [isPipSize, Bool.or_eq_false_iff, beq_eq_false_iff_ne, ne_eq] at hbad
    obtain ⟨⟨h1, h2⟩, h3⟩ := hbad
    simp [mountOverlay, mountPipSize, h1, h2, h3]
  · cases m <;> simp [mountOverlay, persistMirror, mountMirror]
  · intro hbad
    simp only [List.mem_cons, List.mem_singleton, not_or] at hbad
    obtain ⟨h1, h2, h3, h4, -⟩ := hbad
    simp [mountOverlay, mountMirror, h1, h2, h3, h4]
  · rcases p with ⟨x, y⟩
    simp [persistBubblePos, initBubblePos]
  · intro hx1 hx2 hy1 hy2
    rcases p with ⟨x, y⟩
    simp only [persistBubblePos, initBubblePos, clamp, Option.map_some']
    rw [max_eq_right hx1, min_eq_right hx2, max_eq_right hy1, min_eq_right hy2]
  · intro habs
    simp [initBubblePos, habs]
  · intro hbad
    simp [initBubblePos, hbad]
  · intro hrec
    rw [hrec]
    simp [initBubblePos]
  · rcases pos with _ | ⟨ox', oy'⟩ <;> rfl

/-- C9 witness: whatever the stored preferences (here a stored `lg` preset,
an unparseable position and an unrecognized mirror string), the mode mounts
as `none`; a freshly persisted `md` preset is restored on the next mount;
and the unrecognized mirror string leaves the mirrored default. -/
theorem overlay_preferences_persist_witness :
    (mountOverlay { cameraPipSize := some "lg", cameraMirror := some "junk"
                    cameraBubblePos := some none }).pipMode = PipMode.none ∧
    (mountOverlay (persistPipSize
        { cameraPipSize := some "lg", cameraMirror := some "junk"
          cameraBubblePos := some none } PipSize.md)).pipSize = PipSize.md ∧
    (mountOverlay { cameraPipSize := some "lg", cameraMirror := some "junk"
                    cameraBubblePos := some none }).isCameraMirrored = true :=
  ⟨(overlay_preferences_persist
      { cameraPipSize := some "lg", cameraMirror := some "junk"
        cameraBubblePos := some none }
      PipSize.md false (30, 40) none none none 800 600 160 160).1,
   (overlay_preferences_persist
      { cameraPipSize := some "lg", cameraMirror := some "junk"
        cameraBubblePos := some none }
      PipSize.md false (30, 40) none none none 800 600 160 160).2.1,
   (overlay_preferences_persist
      { cameraPipSize := some "lg", cameraMirror := some "junk"
        cameraBubblePos := some none }
      PipSize.md false (30, 40) none none none 800 600 160 160).2.2.2.2.1 (by decide)⟩

end Screenflow
